import Mathlib

/-!
Verification of the configuration service, sidebar component and navigation
flattening utility of the material-design-admin-angular repository.

JavaScript objects can lack fields, so every field of a configuration object
is modelled as an `Option`: `none` is an absent (or `undefined`) key and
`some v` a present one.  The object-spread operator `{...a, ...b}` is
modelled field-wise: the field of `b` wins when present, otherwise the field
of `a` is kept, and spreading `undefined` contributes nothing.
-/

/-- The `layout` subsection of a configuration object, with every key
optional as in a dynamically-typed JavaScript object. -/
structure LayoutObj where
  navigation : Option String
  navigationFolded : Option Bool
  toolbar : Option String
  footer : Option String
  mode : Option String
deriving DecidableEq, Repr

/-- The `colorClasses` subsection of a configuration object. -/
structure ColorClassesObj where
  toolbar : Option String
  navbar : Option String
  footer : Option String
deriving DecidableEq, Repr

/-- A configuration object.  A value of this type also serves as the partial
configuration passed to `setConfig` (any subset of keys may be present). -/
structure ConfigObj where
  layout : Option LayoutObj
  colorClasses : Option ColorClassesObj
  customScrollbars : Option Bool
  routerAnimation : Option String
deriving DecidableEq, Repr

/-- A `layout` object with no keys: the result of spreading `undefined`. -/
def emptyLayoutObj : LayoutObj :=
  ⟨none, none, none, none, none⟩

/-- A `colorClasses` object with no keys. -/
def emptyColorClassesObj : ColorClassesObj :=
  ⟨none, none, none⟩

/-- One field of `{...a, ...b}`: the value from `b` when the key is present
there, otherwise the value from `a`. -/
def spreadField {α : Type} (a b : Option α) : Option α :=
  match b with
  | some v => some v
  | none => a

/-- Spread `{...a, ...b}` on two `layout` objects. -/
def spreadLayout (a b : LayoutObj) : LayoutObj :=
  { navigation := spreadField a.navigation b.navigation
    navigationFolded := spreadField a.navigationFolded b.navigationFolded
    toolbar := spreadField a.toolbar b.toolbar
    footer := spreadField a.footer b.footer
    mode := spreadField a.mode b.mode }

/-- Spread `{...a, ...b}` where `a` and `b` are possibly-absent `layout` values
(spreading an absent value contributes no keys). -/
def spreadLayoutOpt (a b : Option LayoutObj) : LayoutObj :=
  spreadLayout (a.getD emptyLayoutObj) (b.getD emptyLayoutObj)

/-- Spread `{...a, ...b}` on two `colorClasses` objects. -/
def spreadColorClasses (a b : ColorClassesObj) : ColorClassesObj :=
  { toolbar := spreadField a.toolbar b.toolbar
    navbar := spreadField a.navbar b.navbar
    footer := spreadField a.footer b.footer }

/-- Spread `{...a, ...b}` on possibly-absent `colorClasses` values. -/
def spreadColorClassesOpt (a b : Option ColorClassesObj) : ColorClassesObj :=
  spreadColorClasses (a.getD emptyColorClassesObj) (b.getD emptyColorClassesObj)

/-- The merge performed by `FuseConfigService.setConfig`
(src/@fuse/services/config.service.ts): the top level is
`{...this.config, ...config}` with the `layout` and `colorClasses` keys
overwritten by the nested spreads
`{...this.config.layout, ...config.layout}` and
`{...this.config.colorClasses, ...config.colorClasses}`. -/
def mergeConfig (cur p : ConfigObj) : ConfigObj :=
  { layout := some (spreadLayoutOpt cur.layout p.layout)
    colorClasses := some (spreadColorClassesOpt cur.colorClasses p.colorClasses)
    customScrollbars := spreadField cur.customScrollbars p.customScrollbars
    routerAnimation := spreadField cur.routerAnimation p.routerAnimation }

/-- The compile-time `DEFAULT_CONFIG` constant of the config service, with
every key present. -/
def DEFAULT_CONFIG : ConfigObj :=
  { layout := some
      { navigation := some "left"
        navigationFolded := some false
        toolbar := some "below"
        footer := some "below"
        mode := some "fullwidth" }
    colorClasses := some
      { toolbar := some "mat-white-500-bg"
        navbar := some "mat-fuse-dark-700-bg"
        footer := some "mat-fuse-dark-900-bg" }
    customScrollbars := some true
    routerAnimation := some "fadeIn" }

/-- The state of a `FuseConfigService` instance: the stored default
configuration and the current working configuration. -/
structure FuseConfigService where
  defaultConfig : ConfigObj
  config : ConfigObj
deriving DecidableEq, Repr

/-- The method `FuseConfigService.setConfig`: replace the working configuration with the
merge of the given (possibly partial) object over it.  The subsequent
broadcast on `onConfigChanged` carries `config` and is not part of the
state. -/
def FuseConfigService.setConfig (s : FuseConfigService) (p : ConfigObj) :
    FuseConfigService :=
  { s with config := mergeConfig s.config p }

/-- The `FuseConfigService` constructor: the default configuration is the
custom one when provided, otherwise `DEFAULT_CONFIG`; on a mobile platform
(`platform.ANDROID || platform.IOS`) `customScrollbars` is forced to `false`
in the default; the working configuration starts as a shallow copy of the
default. -/
def mkFuseConfigService (custom : Option ConfigObj) (mobile : Bool) :
    FuseConfigService :=
  let d0 := custom.getD DEFAULT_CONFIG
  let d := if mobile then { d0 with customScrollbars := some false } else d0
  { defaultConfig := d, config := d }

/-- The router-events subscription of the constructor: on every
`NavigationStart` event the service calls
`setConfig({ layout: this.defaultConfig.layout })`. -/
def FuseConfigService.navigationStartEvent (s : FuseConfigService) :
    FuseConfigService :=
  s.setConfig
    { layout := s.defaultConfig.layout
      colorClasses := none
      customScrollbars := none
      routerAnimation := none }

/-- Apply a sequence of `setConfig` calls in order. -/
def FuseConfigService.setConfigAll (s : FuseConfigService)
    (ps : List ConfigObj) : FuseConfigService :=
  ps.foldl FuseConfigService.setConfig s

/-- Every key of the `layout` subsection is present. -/
def layoutFull (l : LayoutObj) : Bool :=
  l.navigation.isSome && l.navigationFolded.isSome && l.toolbar.isSome
    && l.footer.isSome && l.mode.isSome

/-- Every key of the `colorClasses` subsection is present. -/
def colorClassesFull (c : ColorClassesObj) : Bool :=
  c.toolbar.isSome && c.navbar.isSome && c.footer.isSome

/-- The configuration object is fully populated: the four top-level keys are
present and every field of the `layout` and `colorClasses` subsections is
present. -/
def configFull (c : ConfigObj) : Bool :=
  (match c.layout with
   | some l => layoutFull l
   | none => false)
  && (match c.colorClasses with
      | some cc => colorClassesFull cc
      | none => false)
  && c.customScrollbars.isSome && c.routerAnimation.isSome

theorem spreadField_isSome {α : Type} (a b : Option α) (h : a.isSome) :
    (spreadField a b).isSome := by
  cases b <;> simp [spreadField, h]

theorem spreadField_none {α : Type} (a : Option α) :
    spreadField a none = a := rfl

theorem layoutFull_spread (a : LayoutObj) (b : LayoutObj)
    (h : layoutFull a) : layoutFull (spreadLayout a b) := by
  simp only [layoutFull, Bool.and_eq_true] at h ⊢
  obtain ⟨⟨⟨⟨h1, h2⟩, h3⟩, h4⟩, h5⟩ := h
  exact ⟨⟨⟨⟨spreadField_isSome _ _ h1, spreadField_isSome _ _ h2⟩,
    spreadField_isSome _ _ h3⟩, spreadField_isSome _ _ h4⟩,
    spreadField_isSome _ _ h5⟩

theorem colorClassesFull_spread (a : ColorClassesObj) (b : ColorClassesObj)
    (h : colorClassesFull a) : colorClassesFull (spreadColorClasses a b) := by
  simp only [colorClassesFull, Bool.and_eq_true] at h ⊢
  obtain ⟨⟨h1, h2⟩, h3⟩ := h
  exact ⟨⟨spreadField_isSome _ _ h1, spreadField_isSome _ _ h2⟩,
    spreadField_isSome _ _ h3⟩

/-- One `setConfig` call preserves full population of the configuration. -/
theorem configFull_mergeConfig (cur p : ConfigObj) (h : configFull cur) :
    configFull (mergeConfig cur p) := by
  simp only [configFull, Bool.and_eq_true] at h ⊢
  obtain ⟨⟨⟨hl, hc⟩, hs⟩, hr⟩ := h
  refine ⟨⟨⟨?_, ?_⟩, spreadField_isSome _ _ hs⟩, spreadField_isSome _ _ hr⟩
  · cases hcur : cur.layout with
    | none => rw [hcur] at hl; exact absurd hl (by simp)
    | some l =>
      rw [hcur] at hl
      simp only [mergeConfig, spreadLayoutOpt, hcur, Option.getD_some]
      exact layoutFull_spread _ _ hl
  · cases hcur : cur.colorClasses with
    | none => rw [hcur] at hc; exact absurd hc (by simp)
    | some cc =>
      rw [hcur] at hc
      simp only [mergeConfig, spreadColorClassesOpt, hcur, Option.getD_some]
      exact colorClassesFull_spread _ _ hc

theorem configFull_setConfigAll (s : FuseConfigService) (ps : List ConfigObj)
    (h : configFull s.config) :
    configFull (s.setConfigAll ps).config := by
  induction ps generalizing s with
  | nil => exact h
  | cons p rest ih =>
    exact ih (s.setConfig p) (configFull_mergeConfig _ _ h)

/-- C1: For every sequence of `setConfig` calls on a config service
initialized from the default configuration (on any platform), the resulting
configuration object contains every field of the original default: the
top-level keys `layout`, `colorClasses`, `customScrollbars` and
`routerAnimation` are present, and every field of the `layout` and
`colorClasses` subsections present in the default remains present after any
merge of a partial configuration. -/
theorem setConfig_never_drops_default_fields (mobile : Bool)
    (ps : List ConfigObj) :
    configFull ((mkFuseConfigService none mobile).setConfigAll ps).config := by
  apply configFull_setConfigAll
  cases mobile <;> decide

theorem spreadField_full {α : Type} (a : Option α) (v : α) :
    spreadField a (some v) = some v := rfl

theorem spreadLayout_full (a b : LayoutObj) (h : layoutFull b) :
    spreadLayout a b = b := by
  simp only [layoutFull, Bool.and_eq_true, Option.isSome_iff_exists] at h
  obtain ⟨⟨⟨⟨⟨v1, h1⟩, v2, h2⟩, v3, h3⟩, v4, h4⟩, v5, h5⟩ := h
  cases b
  simp_all [spreadLayout, spreadField]

theorem spreadColorClasses_empty (a : ColorClassesObj) :
    spreadColorClasses a emptyColorClassesObj = a := by
  simp [spreadColorClasses, emptyColorClassesObj, spreadField]

theorem setConfigAll_defaultConfig (s : FuseConfigService)
    (ps : List ConfigObj) :
    (s.setConfigAll ps).defaultConfig = s.defaultConfig := by
  induction ps generalizing s with
  | nil => rfl
  | cons p rest ih => exact ih (s.setConfig p)

/-- C2: From the startup state, after any sequence of `setConfig` calls
(for example `setConfig({layout:{mode:"boxed"}})`), a navigation-start event
resets the entire `layout` subsection to the stored startup default's
`layout`, while the current `colorClasses` (including any previously-set
override), the `customScrollbars` flag and `routerAnimation` keep their
current values. -/
theorem navigationStart_resets_layout_only (mobile : Bool)
    (ps : List ConfigObj) :
    ((mkFuseConfigService none mobile).setConfigAll ps
        |>.navigationStartEvent).config.layout
        = (mkFuseConfigService none mobile).defaultConfig.layout
    ∧ ((mkFuseConfigService none mobile).setConfigAll ps
        |>.navigationStartEvent).config.colorClasses
        = ((mkFuseConfigService none mobile).setConfigAll ps).config.colorClasses
    ∧ ((mkFuseConfigService none mobile).setConfigAll ps
        |>.navigationStartEvent).config.customScrollbars
        = ((mkFuseConfigService none mobile).setConfigAll ps).config.customScrollbars
    ∧ ((mkFuseConfigService none mobile).setConfigAll ps
        |>.navigationStartEvent).config.routerAnimation
        = ((mkFuseConfigService none mobile).setConfigAll ps).config.routerAnimation := by
  have hfull := setConfig_never_drops_default_fields mobile ps
  set s := (mkFuseConfigService none mobile).setConfigAll ps with hs
  have hdef : s.defaultConfig = (mkFuseConfigService none mobile).defaultConfig :=
    setConfigAll_defaultConfig _ _
  have hdl : s.defaultConfig.layout
      = (mkFuseConfigService none mobile).defaultConfig.layout := by rw [hdef]
  refine ⟨?_, ?_, ?_, ?_⟩
  · rw [← hdl]
    have hdlfull : ∃ dl, s.defaultConfig.layout = some dl ∧ layoutFull dl := by
      rw [hdef]; cases mobile <;> exact ⟨_, rfl, by decide⟩
    obtain ⟨dl, hdl2, hfull2⟩ := hdlfull
    simp only [FuseConfigService.navigationStartEvent, FuseConfigService.setConfig,
      mergeConfig, hdl2, spreadLayoutOpt, Option.getD_some]
    rw [spreadLayout_full _ _ hfull2]
  · simp only [configFull, Bool.and_eq_true] at hfull
    obtain ⟨⟨⟨_, hc⟩, _⟩, _⟩ := hfull
    cases hcc : s.config.colorClasses with
    | none => rw [hcc] at hc; exact absurd hc (by simp)
    | some cc =>
      simp only [FuseConfigService.navigationStartEvent, FuseConfigService.setConfig,
        mergeConfig, spreadColorClassesOpt, hcc, Option.getD_some,
        Option.getD_none]
      rw [spreadColorClasses_empty]
  · rfl
  · rfl

/-!
The sidebar component (src/@fuse/components/sidebar/sidebar.component.ts).
DOM side effects are modelled by flags: `backdrop` records whether a backdrop
overlay element currently exists (its opacity animation is abstracted away,
so `hideBackdrop` removes the element immediately), `siblingMargin` records
whether the fixed-width margin override is currently applied to the adjacent
sibling element (the `nextElementSibling`/`marginLeft` pair for a
left-aligned sidebar, `previousElementSibling`/`marginRight` for a
right-aligned one), and `hasSibling` records whether that adjacent sibling
element exists at all.  The name-keyed sidebar registry (`FuseSidebarService`,
whose source is not in the repository snapshot; modelled from the spec:
a registry in which a sidebar registers at mount and unregisters at
teardown) is abstracted to the `registered` flag, and an rxjs subscription
object that may be undefined is abstracted to the `hasMediaSub` flag. -/
structure SidebarState where
  align : String
  lockedOpen : Option String
  opened : Bool
  isLockedOpen : Bool
  unfolded : Bool
  folded : Bool
  wasActive : Bool
  backdrop : Bool
  siblingMargin : Bool
  hasSibling : Bool
  registered : Bool
  hasMediaSub : Bool
deriving DecidableEq, Repr

namespace FuseSidebarComponent

/-- The `folded` property setter: a no-op while the sidebar is closed;
otherwise it records the new value and, when the adjacent sibling element
exists, applies the margin override (folding) or removes it (unfolding). -/
def setFolded (s : SidebarState) (value : Bool) : SidebarState :=
  if !s.opened then s
  else
    let s1 := { s with folded := value }
    if !s1.hasSibling then s1
    else if value then { s1 with siblingMargin := true }
    else { s1 with siblingMargin := false }

/-- The constructor: `opened = false`, `folded = false` (through the setter,
hence a no-op on the backing field), `align = "left"`.  The `lockedOpen`
input and the existence of a sibling element are parameters of the
instance; an unset `lockedOpen` input (`undefined`, falsy in the
`_setupLockedOpen` guard) is `none`. -/
def mk (lockedOpen : Option String) (hasSibling : Bool) : SidebarState :=
  setFolded
    { align := "left", lockedOpen := lockedOpen, opened := false
      isLockedOpen := false, unfolded := false, folded := false
      wasActive := false, backdrop := false, siblingMargin := false
      hasSibling := hasSibling, registered := false, hasMediaSub := false }
    false

/-- The `ngOnInit` hook: register in the sidebar registry, set up the alignment CSS
class (no modelled state), and set up the locked-open handler: when the
`lockedOpen` input was set, initialize `_wasActive` to `false` and create
the media-change subscription. -/
def ngOnInit (s : SidebarState) : SidebarState :=
  let s1 := { s with registered := true }
  match s1.lockedOpen with
  | none => s1
  | some _ => { s1 with wasActive := false, hasMediaSub := true }

/-- The `showBackdrop` method: create the overlay element, append it next to the
sidebar, and play the fade-in animation (the element now exists). -/
def showBackdrop (s : SidebarState) : SidebarState :=
  { s with backdrop := true }

/-- The `hideBackdrop` method: a no-op when no backdrop exists; otherwise play the
fade-out animation and remove the element on completion (modelled as
immediate removal). -/
def hideBackdrop (s : SidebarState) : SidebarState :=
  if !s.backdrop then s
  else { s with backdrop := false }

/-- The `open()` method (written `open'` because `open` is a Lean keyword): a no-op
when already opened or locked open; otherwise show the backdrop and set
`opened` to `true`. -/
def open' (s : SidebarState) : SidebarState :=
  if s.opened || s.isLockedOpen then s
  else { showBackdrop s with opened := true }

/-- The `close()` method: a no-op when not opened or locked open; otherwise hide the
backdrop and set `opened` to `false`. -/
def close (s : SidebarState) : SidebarState :=
  if !s.opened || s.isLockedOpen then s
  else { hideBackdrop s with opened := false }

/-- The `toggleOpen()` method. -/
def toggleOpen (s : SidebarState) : SidebarState :=
  if s.opened then close s else open' s

/-- The `fold()` method: a no-op when already folded, otherwise write `true` through
the `folded` setter. -/
def fold (s : SidebarState) : SidebarState :=
  if s.folded then s else setFolded s true

/-- The `unfold()` method: a no-op when not folded, otherwise write `false` through
the `folded` setter. -/
def unfold (s : SidebarState) : SidebarState :=
  if !s.folded then s else setFolded s false

/-- The `toggleFold()` method. -/
def toggleFold (s : SidebarState) : SidebarState :=
  if s.folded then unfold s else fold s

/-- The `onMouseEnter` handler: while folded, set the transient unfolded appearance. -/
def onMouseEnter (s : SidebarState) : SidebarState :=
  if !s.folded then s else { s with unfolded := true }

/-- The `onMouseLeave` handler: while folded, clear the transient unfolded appearance. -/
def onMouseLeave (s : SidebarState) : SidebarState :=
  if !s.folded then s else { s with unfolded := false }

/-- The media-change handler installed by `_setupLockedOpen`, applied to one
event: `isActive` is the computed `observableMedia.isActive(lockedOpen)`
status and `navigationFolded` is the value of
`fuseConfigService.config.layout.navigationFolded` at that moment.  When
the status is unchanged nothing happens; on activation set `isLockedOpen`
and `opened`, fold when the config says so, and hide any backdrop; on
deactivation clear `isLockedOpen`, unfold, and close; finally record the
new status. -/
def onMediaChange (s : SidebarState) (isActive navigationFolded : Bool) :
    SidebarState :=
  if s.wasActive == isActive then s
  else if isActive then
    let s1 := { s with isLockedOpen := true, opened := true }
    let s2 := if navigationFolded then fold s1 else s1
    let s3 := hideBackdrop s2
    { s3 with wasActive := isActive }
  else
    let s1 := { s with isLockedOpen := false }
    let s2 := unfold s1
    { s2 with opened := false, wasActive := isActive }

/-- The `ngOnDestroy` hook: when folded, unfold (through the setter); unregister
from the registry; then unsubscribe the media-change subscription.  The
subscription field is only assigned when the `lockedOpen` input was set, so
the final `unsubscribe()` call throws a `TypeError` when it is still
undefined: the second component is `true` exactly when teardown completes
without error. -/
def ngOnDestroy (s : SidebarState) : SidebarState × Bool :=
  let s1 := if s.folded then unfold s else s
  let s2 := { s1 with registered := false }
  if s2.hasMediaSub then ({ s2 with hasMediaSub := false }, true)
  else (s2, false)

/-- The externally triggerable operations on a mounted sidebar.  A
media-change event only reaches the component when the subscription
exists. -/
inductive SidebarOp where
  | callOpen
  | callClose
  | callToggleOpen
  | callFold
  | callUnfold
  | callToggleFold
  | callMouseEnter
  | callMouseLeave
  | setFoldedInput (value : Bool)
  | mediaChange (isActive navigationFolded : Bool)
deriving DecidableEq, Repr

/-- Apply one operation. -/
def applyOp (s : SidebarState) : SidebarOp → SidebarState
  | .callOpen => open' s
  | .callClose => close s
  | .callToggleOpen => toggleOpen s
  | .callFold => fold s
  | .callUnfold => unfold s
  | .callToggleFold => toggleFold s
  | .callMouseEnter => onMouseEnter s
  | .callMouseLeave => onMouseLeave s
  | .setFoldedInput v => setFolded s v
  | .mediaChange a f => if s.hasMediaSub then onMediaChange s a f else s

/-- Apply a sequence of operations in order. -/
def applyOps (s : SidebarState) (ops : List SidebarOp) : SidebarState :=
  ops.foldl applyOp s

end FuseSidebarComponent

namespace FuseSidebarComponent

theorem setFolded_hasMediaSub (s : SidebarState) (v : Bool) :
    (setFolded s v).hasMediaSub = s.hasMediaSub := by
  simp only [setFolded]
  repeat' split
  all_goals rfl

theorem fold_hasMediaSub (s : SidebarState) :
    (fold s).hasMediaSub = s.hasMediaSub := by
  simp only [fold]
  split
  · rfl
  · exact setFolded_hasMediaSub s true

theorem unfold_hasMediaSub (s : SidebarState) :
    (unfold s).hasMediaSub = s.hasMediaSub := by
  simp only [unfold]
  split
  · rfl
  · exact setFolded_hasMediaSub s false

theorem open_hasMediaSub (s : SidebarState) :
    (open' s).hasMediaSub = s.hasMediaSub := by
  simp only [open', showBackdrop]
  split <;> rfl

theorem close_hasMediaSub (s : SidebarState) :
    (close s).hasMediaSub = s.hasMediaSub := by
  simp only [close, hideBackdrop]
  repeat' split
  all_goals rfl

theorem hideBackdrop_hasMediaSub (s : SidebarState) :
    (hideBackdrop s).hasMediaSub = s.hasMediaSub := by
  simp only [hideBackdrop]
  split <;> rfl

theorem onMediaChange_hasMediaSub (s : SidebarState) (a f : Bool) :
    (onMediaChange s a f).hasMediaSub = s.hasMediaSub := by
  simp only [onMediaChange]
  split
  · rfl
  · split
    · rw [hideBackdrop_hasMediaSub]
      split
      · rw [fold_hasMediaSub]
      · rfl
    · rw [unfold_hasMediaSub]

/-- No externally triggerable operation creates or destroys the media-change
subscription. -/
theorem applyOp_hasMediaSub (s : SidebarState) (op : SidebarOp) :
    (applyOp s op).hasMediaSub = s.hasMediaSub := by
  cases op with
  | callOpen => exact open_hasMediaSub s
  | callClose => exact close_hasMediaSub s
  | callToggleOpen =>
    simp only [applyOp, toggleOpen]
    split
    · exact close_hasMediaSub s
    · exact open_hasMediaSub s
  | callFold => exact fold_hasMediaSub s
  | callUnfold => exact unfold_hasMediaSub s
  | callToggleFold =>
    simp only [applyOp, toggleFold]
    split
    · exact unfold_hasMediaSub s
    · exact fold_hasMediaSub s
  | callMouseEnter =>
    simp only [applyOp, onMouseEnter]
    split <;> rfl
  | callMouseLeave =>
    simp only [applyOp, onMouseLeave]
    split <;> rfl
  | setFoldedInput v => exact setFolded_hasMediaSub s v
  | mediaChange a f =>
    simp only [applyOp]
    split
    · exact onMediaChange_hasMediaSub s a f
    · rfl

theorem applyOps_hasMediaSub (s : SidebarState) (ops : List SidebarOp) :
    (applyOps s ops).hasMediaSub = s.hasMediaSub := by
  induction ops generalizing s with
  | nil => rfl
  | cons op rest ih =>
    rw [applyOps, List.foldl_cons, ← applyOps, ih, applyOp_hasMediaSub]

end FuseSidebarComponent

namespace FuseSidebarComponent

/-- C3: A media-change event whose computed active status differs from
the previously recorded status and is active sets `isLockedOpen = true` and
`opened = true`, folds the sidebar exactly when the config's
`layout.navigationFolded` is true at that moment (otherwise the fold state
is untouched), and hides any visible backdrop; an event whose computed
status equals the previously recorded one leaves the sidebar state entirely
unchanged. -/
theorem mediaChange_activation_and_debounce (s : SidebarState)
    (navigationFolded : Bool) :
    ((onMediaChange { s with wasActive := false } true navigationFolded).isLockedOpen = true
      ∧ (onMediaChange { s with wasActive := false } true navigationFolded).opened = true
      ∧ (onMediaChange { s with wasActive := false } true navigationFolded).backdrop = false
      ∧ (onMediaChange { s with wasActive := false } true navigationFolded).folded
          = (navigationFolded || s.folded))
    ∧ onMediaChange s s.wasActive navigationFolded = s := by
  constructor
  · rcases s with ⟨al, lo, op, ilo, uf, fo, wa, bd, sm, hs, rg, hm⟩
    cases navigationFolded <;> cases fo <;> cases bd <;> cases hs <;>
      simp [onMediaChange, fold, setFolded, hideBackdrop]
  · simp [onMediaChange]

/-- C5: While `isLockedOpen` is true, `open()` and `close()` are both
no-ops; `open()` is also a no-op when the sidebar is already opened, and
`close()` is a no-op when it is already closed. -/
theorem open_close_locked_noop (s : SidebarState) :
    (s.isLockedOpen = true → open' s = s ∧ close s = s)
    ∧ (s.opened = true → open' s = s)
    ∧ (s.opened = false → close s = s) := by
  refine ⟨fun h => ⟨?_, ?_⟩, fun h => ?_, fun h => ?_⟩ <;>
    simp [open', close, h]

/-- A locked-open sidebar state used to instantiate `open_close_locked_noop`. -/
def lockedOpenedSample : SidebarState :=
  { align := "left", lockedOpen := some "gt-md", opened := true
    isLockedOpen := true, unfolded := false, folded := false
    wasActive := true, backdrop := false, siblingMargin := false
    hasSibling := true, registered := true, hasMediaSub := true }

theorem open_close_locked_noop_witness :
    (open' lockedOpenedSample = lockedOpenedSample
      ∧ close lockedOpenedSample = lockedOpenedSample)
    ∧ open' lockedOpenedSample = lockedOpenedSample
    ∧ close (mk none true) = mk none true :=
  ⟨(open_close_locked_noop lockedOpenedSample).1 rfl,
   (open_close_locked_noop lockedOpenedSample).2.1 rfl,
   (open_close_locked_noop (mk none true)).2.2 rfl⟩

/-- C6: While the sidebar is closed, `fold()` leaves `folded = false`
when it was false, and any write to the `folded` property is a no-op that
changes nothing (in particular neither the folded flag nor the sibling's
margin). -/
theorem fold_closed_noop (s : SidebarState) (v : Bool)
    (h : s.opened = false) :
    (s.folded = false → (fold s).folded = false) ∧ setFolded s v = s := by
  constructor
  · intro hf
    simp [fold, hf, setFolded, h]
  · simp [setFolded, h]

theorem fold_closed_noop_witness :
    (fold (mk none true)).folded = false
    ∧ setFolded (mk none true) true = mk none true :=
  ⟨(fold_closed_noop (mk none true) true rfl).1 rfl,
   (fold_closed_noop (mk none true) true rfl).2⟩

/-- The state of an unlocked sidebar (with a sibling element) after the call
sequence `open(); fold(); close()`. -/
def strandedSidebar : SidebarState :=
  close (fold (open' (ngOnInit (mk none true))))

/-- C9: the predicate `folded → opened` is not an invariant: after
`open(); fold(); close()` on an unlocked sidebar the state has
`opened = false` and `folded = true` (with the sibling margin adjustment
still applied), and in that state every further write to `folded` —
including `unfold()` — is a no-op, so the margin adjustment persists while
the sidebar is closed. -/
theorem folded_without_opened_reachable :
    strandedSidebar.opened = false
    ∧ strandedSidebar.folded = true
    ∧ strandedSidebar.siblingMargin = true
    ∧ unfold strandedSidebar = strandedSidebar
    ∧ setFolded strandedSidebar false = strandedSidebar
    ∧ setFolded strandedSidebar true = strandedSidebar := by
  decide

/-- The state of a sidebar with `lockedOpen` configured (and a sibling
element) after `open(); fold(); close()`: folded but closed at teardown
time. -/
def strandedLockable : SidebarState :=
  close (fold (open' (ngOnInit (mk (some "gt-md") true))))

/-- C4 counterexample: A sidebar that is folded at teardown time for
which teardown performs no unfold transition: after `open(); fold();
close()` the sidebar is folded but closed, and `ngOnDestroy` leaves
`folded = true` and the sibling margin adjustment in place, because the
`folded` setter is a no-op while the sidebar is closed. -/
theorem destroy_folded_no_unfold_cex :
    strandedLockable.folded = true
    ∧ strandedLockable.opened = false
    ∧ (ngOnDestroy strandedLockable).1.folded = true
    ∧ (ngOnDestroy strandedLockable).1.siblingMargin = true := by
  decide

/-- C4 amended: For every sidebar that is folded and still opened at
teardown time, teardown performs an unfold transition before unregistering:
the final state is unfolded, the sibling margin adjustment is reverted
(when the sibling element exists), and the sidebar is unregistered. -/
theorem destroy_folded_opened_unfolds (s : SidebarState)
    (hf : s.folded = true) (ho : s.opened = true) :
    (ngOnDestroy s).1.folded = false
    ∧ (s.hasSibling = true → (ngOnDestroy s).1.siblingMargin = false)
    ∧ (ngOnDestroy s).1.registered = false := by
  rcases s with ⟨al, lo, op, ilo, uf, fo, wa, bd, sm, hs, rg, hm⟩
  replace hf : fo = true := hf
  replace ho : op = true := ho
  subst hf
  subst ho
  cases hs <;> cases hm <;>
    simp [ngOnDestroy, unfold, setFolded]

/-- A folded and opened sidebar state used to instantiate
`destroy_folded_opened_unfolds`. -/
def foldedOpenedSample : SidebarState :=
  fold (open' (ngOnInit (mk (some "gt-md") true)))

theorem destroy_folded_opened_unfolds_witness :
    (ngOnDestroy foldedOpenedSample).1.folded = false
    ∧ (ngOnDestroy foldedOpenedSample).1.siblingMargin = false
    ∧ (ngOnDestroy foldedOpenedSample).1.registered = false :=
  ⟨(destroy_folded_opened_unfolds foldedOpenedSample (by decide) (by decide)).1,
   (destroy_folded_opened_unfolds foldedOpenedSample (by decide) (by decide)).2.1 rfl,
   (destroy_folded_opened_unfolds foldedOpenedSample (by decide) (by decide)).2.2⟩

theorem ngOnDestroy_snd (s : SidebarState) :
    (ngOnDestroy s).2 = s.hasMediaSub := by
  simp only [ngOnDestroy]
  split
  · rw [← unfold_hasMediaSub s]
    split
    · next hc => exact hc.symm
    · next hc =>
        simp only [Bool.not_eq_true] at hc
        exact hc.symm
  · split
    · next hc => exact hc.symm
    · next hc =>
        simp only [Bool.not_eq_true] at hc
        exact hc.symm

/-- C10: For a sidebar mounted with any `lockedOpen` input and subjected
to any sequence of operations, teardown completes without error exactly
when the `lockedOpen` input was set: the media-change subscription
unsubscribed by `ngOnDestroy` is only created when `lockedOpen` was
configured, and no operation creates or destroys it afterwards. -/
theorem destroy_completes_iff_lockedOpen (lockedOpen : Option String)
    (hasSibling : Bool) (ops : List SidebarOp) :
    (ngOnDestroy (applyOps (ngOnInit (mk lockedOpen hasSibling)) ops)).2
      = lockedOpen.isSome := by
  have h2 : (ngOnInit (mk lockedOpen hasSibling)).hasMediaSub
      = lockedOpen.isSome := by
    cases lockedOpen <;> rfl
  rw [ngOnDestroy_snd, applyOps_hasMediaSub, h2]

end FuseSidebarComponent

/-!
The navigation flattening utility
(src/@fuse/components/navigation/navigation.service.ts).
-/

/-- One record pushed into `flatNavigation`:
`{title, type, icon, url}`, where the `icon` field holds the node's icon or
`false` (modelled as `none`) when the icon is falsy. -/
structure FlatNavItem where
  title : String
  type : String
  icon : Option String
  url : String
deriving DecidableEq, Repr

/-- A node of the dynamically-typed navigation tree: its `type` tag is
`"item"` (carrying `title`, optional `icon` and `url`), `"collapse"` or
`"group"` (each carrying an optional `children` array), or anything else
(`other`), which the traversal ignores. -/
inductive NavItem where
  | item (title : String) (icon : Option String) (url : String)
  | collapse (children : Option (List NavItem))
  | group (children : Option (List NavItem))
  | other
deriving Repr

/-- The expression `navItem.icon || false`: the icon when truthy, `false` (here `none`)
when absent or the empty string. -/
def iconOrFalse (i : Option String) : Option String :=
  match i with
  | some s => if s = "" then none else some s
  | none => none

/-- The body of `getFlatNavigation`, with the mutable instance field
`this.flatNavigation` passed explicitly as the accumulator `acc`: for each
node in order, an `item` node is pushed onto the accumulator, a `collapse`
or `group` node with a (truthy) `children` array is recursed into, and any
other node is skipped. -/
def flattenInto : List FlatNavItem → List NavItem → List FlatNavItem
  | acc, [] => acc
  | acc, NavItem.item t i u :: rest =>
      flattenInto (acc ++ [⟨t, "item", iconOrFalse i, u⟩]) rest
  | acc, NavItem.collapse (some cs) :: rest =>
      flattenInto (flattenInto acc cs) rest
  | acc, NavItem.collapse none :: rest => flattenInto acc rest
  | acc, NavItem.group (some cs) :: rest =>
      flattenInto (flattenInto acc cs) rest
  | acc, NavItem.group none :: rest => flattenInto acc rest
  | acc, NavItem.other :: rest => flattenInto acc rest

/-- The state of a `FuseNavigationService` instance: the `flatNavigation`
instance field, initialized to `[]` and never reset. -/
structure FuseNavigationService where
  flatNavigation : List FlatNavItem
deriving DecidableEq, Repr

/-- The method `getFlatNavigation(navigation)`: push the flattened entries of the tree
onto the instance accumulator and return it (both the new instance state
and the returned array). -/
def getFlatNavigation (s : FuseNavigationService) (navigation : List NavItem) :
    FuseNavigationService × List FlatNavItem :=
  let r := flattenInto s.flatNavigation navigation
  ({ flatNavigation := r }, r)

/-- Iterate `n` successive `getFlatNavigation` calls with the same tree on the same
service instance. -/
def callFlattenN (s : FuseNavigationService) (nav : List NavItem) :
    Nat → FuseNavigationService
  | 0 => s
  | n + 1 => (getFlatNavigation (callFlattenN s nav n) nav).1

/-- Modelled from the spec (§4.3), as the reference behavior the source is
compared against: a depth-first traversal that produces a flat ordered
sequence of `{title, type, icon, url}` records, visiting every `item` leaf
in order, recursing into every `collapse`/`group` node's children, skipping
grouping nodes that lack children, with the icon defaulting to `false` when
it is falsy (absent or empty). -/
def flattenSpec : List NavItem → List FlatNavItem
  | [] => []
  | NavItem.item t i u :: rest =>
      ⟨t, "item", iconOrFalse i, u⟩ :: flattenSpec rest
  | NavItem.collapse (some cs) :: rest => flattenSpec cs ++ flattenSpec rest
  | NavItem.collapse none :: rest => flattenSpec rest
  | NavItem.group (some cs) :: rest => flattenSpec cs ++ flattenSpec rest
  | NavItem.group none :: rest => flattenSpec rest
  | NavItem.other :: rest => flattenSpec rest

/-- The push-based traversal of the source appends the depth-first
flattening of the tree after whatever the accumulator already holds. -/
theorem flattenInto_eq (acc : List FlatNavItem) (nav : List NavItem) :
    flattenInto acc nav = acc ++ flattenSpec nav := by
  induction acc, nav using flattenInto.induct with
  | case1 acc => simp [flattenInto, flattenSpec]
  | case2 acc t i u rest ih =>
      rw [flattenInto, flattenSpec, ih]
      simp
  | case3 acc cs rest ih1 ih2 =>
      rw [flattenInto, flattenSpec, ih2, ih1]
      simp
  | case4 acc rest ih =>
      rw [flattenInto, flattenSpec, ih]
  | case5 acc cs rest ih1 ih2 =>
      rw [flattenInto, flattenSpec, ih2, ih1]
      simp
  | case6 acc rest ih =>
      rw [flattenInto, flattenSpec, ih]
  | case7 acc rest ih =>
      rw [flattenInto, flattenSpec, ih]

/-- C7: The accumulator persists across `getFlatNavigation` calls on the
same service instance: starting from a fresh instance, the list returned
after `n` calls with the same tree has length `n * k`, where `k` is the
number of entries one flattening produces, and the second of two successive
calls returns the first call's result appended to itself (each entry
appears twice). -/
theorem repeated_flatten_appends (nav : List NavItem) (n : Nat) :
    ((callFlattenN ⟨[]⟩ nav n).flatNavigation).length
      = n * (flattenInto [] nav).length
    ∧ (getFlatNavigation (getFlatNavigation ⟨[]⟩ nav).1 nav).2
      = (getFlatNavigation ⟨[]⟩ nav).2 ++ (getFlatNavigation ⟨[]⟩ nav).2 := by
  constructor
  · induction n with
    | zero => simp [callFlattenN]
    | succ m ih =>
        simp only [callFlattenN, getFlatNavigation, flattenInto_eq]
        simp only [List.length_append, ih, flattenInto_eq, List.nil_append]
        ring
  · simp only [getFlatNavigation, flattenInto_eq, List.nil_append]

/-- The navigation tree
`[{type:"group", children:[{type:"item", title:"Sample", url:"/sample"}]}]`. -/
def sampleNav : List NavItem :=
  [NavItem.group (some [NavItem.item "Sample" none "/sample"])]

/-- C8: On a fresh service instance, flattening the sample tree yields
exactly `[{title:"Sample", type:"item", icon:false, url:"/sample"}]`; and
in general the returned list is the depth-first flattening described by the
spec (`flattenSpec`): every `item` leaf in order, recursion into
`collapse`/`group` children, grouping nodes without children skipped, icon
defaulting to `false`. -/
theorem flatten_sample_dfs :
    (getFlatNavigation ⟨[]⟩ sampleNav).2
      = [{ title := "Sample", type := "item", icon := none, url := "/sample" }]
    ∧ ∀ nav : List NavItem,
        (getFlatNavigation ⟨[]⟩ nav).2 = flattenSpec nav := by
  constructor
  · simp [getFlatNavigation, sampleNav, flattenInto, iconOrFalse]
  · intro nav
    simp only [getFlatNavigation, flattenInto_eq, List.nil_append]
